import Mathlib

/-!
Shallow embedding of `src/main.py` of the db-script repository: a single-file
database backup pipeline (dump to a timestamped local SQL file, upload to
object storage, prune old local backups).

External effects are made explicit:
* the process environment is an association list of variables,
* the local filesystem is an association list from path to content,
* the external dump process, the storage client, and the per-file stat and
  remove operations of the retention scan are supplied as explicit behaviours,
* exceptions are values of `PyError`, and a function that may raise returns
  `Except PyError _`; a `try/except` block is a `match` on that value.
-/

set_option autoImplicit false

deriving instance DecidableEq for Except

namespace DbScript

/-- Python exception values that the script can raise or catch. -/
inductive PyError where
  | calledProcessError (code : Int)
  | fileNotFoundError (path : String)
  | oSError (msg : String)
  | valueError (msg : String)
  | storageError (msg : String)
  deriving Repr, DecidableEq

/-- `os.path.join a b` for the two-argument, relative-second-argument uses in
the script. -/
def joinPath (a b : String) : String := a ++ "/" ++ b

/-- `os.path.basename`: the part of the path after the last slash. -/
def basename (p : String) : String := ((p.splitOn "/").reverse).headD ""

/-- The local filesystem, as an association list from path to file content. -/
abbrev FS := List (String × String)

/-- Content of the file at path `p`, `none` when no such file exists. -/
def fsGet : FS → String → Option String
  | [], _ => none
  | e :: rest, p => if e.1 = p then some e.2 else fsGet rest p

/-- Create the file at path `p` with content `v`, replacing any previous
content (the effect of `open(p, "w")` followed by writing `v`). -/
def fsSet (fs : FS) (p v : String) : FS :=
  (p, v) :: fs.filter (fun e => e.1 ≠ p)

/-- The process environment: variable-name / value pairs
(after `load_dotenv` has merged the `.env` file in). -/
abbrev Env := List (String × String)

/-- `os.getenv k`: `none` when the variable is unset. -/
def getenv : Env → String → Option String
  | [], _ => none
  | e :: rest, k => if e.1 = k then some e.2 else getenv rest k

/-- `os.getenv k d`: the value of `k`, or the default `d` when unset. -/
def getenvD (env : Env) (k d : String) : String := (getenv env k).getD d

/-- The validated configuration values extracted at module load
(lines 39-46 of `src/main.py`). -/
structure Config where
  DB_CONTAINER_NAME : String
  DB_NAME : String
  DB_USER : String
  SUPABASE_URL : String
  SUPABASE_KEY : String
  SUPABASE_BUCKET : String
  BACKUP_DIR : String
  DB_PASSWORD : String
  deriving Repr, DecidableEq

/-- The names of the keys of the `required_env_vars` dict, in source order. -/
def requiredEnvVarNames : List String :=
  ["DB_CONTAINER_NAME", "DB_NAME", "DB_USER", "SUPABASE_URL",
   "SUPABASE_KEY", "SUPABASE_BUCKET", "BACKUP_DIR", "DB_PASSWORD"]

/-- The `required_env_vars` dict (lines 22-31): key name paired with the
`os.getenv` result; `BACKUP_DIR` alone has a default (`"backups"`). -/
def required_env_vars (env : Env) : List (String × Option String) :=
  [("DB_CONTAINER_NAME", getenv env "DB_CONTAINER_NAME"),
   ("DB_NAME", getenv env "DB_NAME"),
   ("DB_USER", getenv env "DB_USER"),
   ("SUPABASE_URL", getenv env "SUPABASE_URL"),
   ("SUPABASE_KEY", getenv env "SUPABASE_KEY"),
   ("SUPABASE_BUCKET", getenv env "SUPABASE_BUCKET"),
   ("BACKUP_DIR", some (getenvD env "BACKUP_DIR" "backups")),
   ("DB_PASSWORD", getenv env "DB_PASSWORD")]

/-- Line 34: the keys of `required_env_vars` whose value is `None`. -/
def missing_vars (env : Env) : List String :=
  ((required_env_vars env).filter (fun p => p.2 = none)).map (fun p => p.1)

/-- Extraction of the validated values into the module-level constants
(lines 39-46); only used after the missing-variable check has passed, so the
`getD ""` defaults are never reached there. -/
def cfgOfEnv (env : Env) : Config :=
  { DB_CONTAINER_NAME := (getenv env "DB_CONTAINER_NAME").getD ""
    DB_NAME := (getenv env "DB_NAME").getD ""
    DB_USER := (getenv env "DB_USER").getD ""
    SUPABASE_URL := (getenv env "SUPABASE_URL").getD ""
    SUPABASE_KEY := (getenv env "SUPABASE_KEY").getD ""
    SUPABASE_BUCKET := (getenv env "SUPABASE_BUCKET").getD ""
    BACKUP_DIR := getenvD env "BACKUP_DIR" "backups"
    DB_PASSWORD := (getenv env "DB_PASSWORD").getD "" }

/-- Side effects performed at module load, in program order. -/
inductive StartupEffect where
  | openLogFile (path : String)
  | readDotenv
  | makedirs (dir : String)
  | createStorageClient (url key : String)
  deriving Repr, DecidableEq

/-- Whether a startup effect touches the filesystem. -/
def isFileEffect : StartupEffect → Bool
  | StartupEffect.openLogFile _ => true
  | StartupEffect.readDotenv => true
  | StartupEffect.makedirs _ => true
  | StartupEffect.createStorageClient _ _ => false

/-- Module-level code of `src/main.py` (lines 9-52), in order:
`logging.basicConfig` with a `FileHandler` (opens `database_backup.log`),
`load_dotenv()` (reads the `.env` file), the `required_env_vars` check with
`raise ValueError` listing the missing names, then `os.makedirs(BACKUP_DIR)`
and `create_client(SUPABASE_URL, SUPABASE_KEY)`.
Returns the effects performed, and either the validated configuration or the
raised error. -/
def module_load (env : Env) : List StartupEffect × Except PyError Config :=
  let pre := [StartupEffect.openLogFile "database_backup.log", StartupEffect.readDotenv]
  if (missing_vars env).isEmpty then
    let cfg := cfgOfEnv env
    (pre ++ [StartupEffect.makedirs cfg.BACKUP_DIR,
             StartupEffect.createStorageClient cfg.SUPABASE_URL cfg.SUPABASE_KEY],
     Except.ok cfg)
  else
    (pre, Except.error (PyError.valueError
      ("Missing required environment variables: "
        ++ String.intercalate ", " (missing_vars env))))

/-- A `datetime.now()` value, at second granularity (all the script uses). -/
structure DateTime where
  year : Nat
  month : Nat
  day : Nat
  hour : Nat
  minute : Nat
  second : Nat
  deriving Repr, DecidableEq

/-- A number rendered on two digits, zero-padded. -/
def pad2 (n : Nat) : String := if n < 10 then "0" ++ toString n else toString n

/-- A number rendered on four digits, zero-padded. -/
def pad4 (n : Nat) : String :=
  if n < 10 then "000" ++ toString n
  else if n < 100 then "00" ++ toString n
  else if n < 1000 then "0" ++ toString n
  else toString n

/-- `datetime.strftime` with the format string of line 56, `%Y%m%d_%H%M%S`. -/
def strftimeTimestamp (t : DateTime) : String :=
  pad4 t.year ++ pad2 t.month ++ pad2 t.day ++ "_"
    ++ pad2 t.hour ++ pad2 t.minute ++ pad2 t.second

/-- The backup file path of line 57:
`os.path.join(BACKUP_DIR, f"db_backup_{timestamp}.sql")`. -/
def backup_file_path (cfg : Config) (now : DateTime) : String :=
  joinPath cfg.BACKUP_DIR ("db_backup_" ++ strftimeTimestamp now ++ ".sql")

/-- The argument list `cmd` built on lines 60-69. -/
def backup_cmd (cfg : Config) : List String :=
  ["docker", "exec",
   "-e", "PGPASSWORD=" ++ cfg.DB_PASSWORD,
   cfg.DB_CONTAINER_NAME,
   "pg_dump",
   "-U", cfg.DB_USER,
   "-h", "postgres",
   "-p", "5432",
   cfg.DB_NAME]

/-- The values that a `docker exec -e` flag passes into the container process
environment: every argument immediately following a `-e` argument. -/
def envFlagValues : List String → List String
  | [] => []
  | "-e" :: v :: rest => v :: envFlagValues rest
  | _ :: rest => envFlagValues rest

/-- Behaviour of the external dump process launched by `subprocess.run`:
either the launch itself fails (raising before any output is produced), or
the process runs, writes `output` to its standard output, and exits with
`code`. -/
inductive ProcResult where
  | launchFailure (e : PyError)
  | exits (code : Int) (output : String)
  deriving Repr, DecidableEq

/-- `backup_database` (lines 54-86). Takes the current time, the behaviour of
the external process, and the filesystem. Mirrors the source order:
`open(backup_file, "w")` first creates/truncates the output file, then
`subprocess.run(cmd, stdout=output_file, check=True)` runs the process with
its standard output directed into that file. A non-zero exit raises
`CalledProcessError` (caught on line 81, returning `None`); a launch failure
raises an exception (caught on line 84, returning `None`); a zero exit
returns `backup_file`. Result: the filesystem afterwards, and the return
value (`none` standing for `None`). -/
def backup_database (cfg : Config) (now : DateTime) (proc : ProcResult) (fs : FS) :
    FS × Option String :=
  let backup_file := backup_file_path cfg now
  let fs1 := fsSet fs backup_file ""
  match proc with
  | ProcResult.launchFailure _ => (fs1, none)
  | ProcResult.exits code output =>
    let fs2 := fsSet fs1 backup_file output
    if code = 0 then (fs2, some backup_file) else (fs2, none)

/-- Behaviour of the storage client call
`supabase.storage.from_(bucket).upload(name, data)`: succeeds or raises. -/
inductive StorageResult where
  | ok
  | raises (e : PyError)
  deriving Repr, DecidableEq

/-- Observable events of the upload stage. -/
inductive UploadEvent where
  | logInfo (msg : String)
  | logError (msg : String)
  | storageUpload (bucket key content : String)
  deriving Repr, DecidableEq

/-- The body of the `try:` block of `upload_to_supabase` (lines 92-97):
log, `open(file_path, "rb")` (raising `FileNotFoundError` when the file does
not exist), the storage-client upload call (raising on failure), then the
success log. -/
def upload_body (cfg : Config) (sb : StorageResult) (fs : FS) (file_path : String) :
    List UploadEvent × Except PyError Unit :=
  let file_name := basename file_path
  match fsGet fs file_path with
  | none =>
    ([UploadEvent.logInfo ("Starting upload of file: " ++ file_name)],
     Except.error (PyError.fileNotFoundError file_path))
  | some content =>
    match sb with
    | StorageResult.ok =>
      ([UploadEvent.logInfo ("Starting upload of file: " ++ file_name),
        UploadEvent.storageUpload cfg.SUPABASE_BUCKET file_name content,
        UploadEvent.logInfo ("File uploaded successfully to: "
          ++ cfg.SUPABASE_BUCKET ++ "/" ++ file_name)],
       Except.ok ())
    | StorageResult.raises e =>
      ([UploadEvent.logInfo ("Starting upload of file: " ++ file_name),
        UploadEvent.storageUpload cfg.SUPABASE_BUCKET file_name content],
       Except.error e)

/-- `upload_to_supabase` (lines 88-102): the `try:` body wrapped in
`except Exception as e:` which logs the error and falls off the end of the
function. The function itself therefore always returns normally (`Except.ok`
with Python's implicit `None`, here `Unit`). -/
def upload_to_supabase (cfg : Config) (sb : StorageResult) (fs : FS) (file_path : String) :
    List UploadEvent × Except PyError Unit :=
  match upload_body cfg sb fs file_path with
  | (evs, Except.ok u) => (evs, Except.ok u)
  | (evs, Except.error e) =>
    (evs ++ [UploadEvent.logError ("Error uploading to Supabase: " ++ reprStr e)],
     Except.ok ())

/-- One entry of `os.listdir(BACKUP_DIR)`, together with the behaviour of the
filesystem calls made on it by the retention scan: `os.path.isfile`,
`os.path.getmtime` (seconds since the epoch, or an `OSError`), and
`os.remove` (which can also raise). -/
structure DirEntry where
  filename : String
  isFile : Bool
  statResult : Except PyError Int
  removeResult : Except PyError Unit
  deriving Repr, DecidableEq

/-- Observable events of the retention stage. -/
inductive CleanupEvent where
  | deleted (path : String)
  deriving Repr, DecidableEq

/-- The loop body of `cleanup_old_backups` for a single directory entry
(lines 108-113): skip non-files; otherwise stat the file, compute
`file_age = (now - datetime.fromtimestamp(mtime)).days` — Python
`timedelta.days` floors, hence `Int.fdiv` by 86400 — and when
`file_age > days`, remove the file. There is no `try/except`: a stat or
remove error escapes the loop. Result: deletion events, and the raised error
if any. -/
def cleanup_step (backupDir : String) (now days : Int) (e : DirEntry) :
    List CleanupEvent × Option PyError :=
  if e.isFile then
    match e.statResult with
    | Except.error err => ([], some err)
    | Except.ok mtime =>
      if (now - mtime).fdiv 86400 > days then
        match e.removeResult with
        | Except.error err => ([], some err)
        | Except.ok _ => ([CleanupEvent.deleted (joinPath backupDir e.filename)], none)
      else ([], none)
  else ([], none)

/-- `cleanup_old_backups` (lines 104-113): iterate over the directory
listing in order; the first error raised by a step aborts the remaining
iterations and propagates. Result: the deletion events that happened, and
the propagated error if any. -/
def cleanup_old_backups (backupDir : String) (now days : Int) :
    List DirEntry → List CleanupEvent × Option PyError
  | [] => ([], none)
  | e :: rest =>
    match cleanup_step backupDir now days e with
    | (evs, some err) => (evs, some err)
    | (evs, none) =>
      (evs ++ (cleanup_old_backups backupDir now days rest).1,
       (cleanup_old_backups backupDir now days rest).2)

/-- Python truthiness of `if backup_file:` on line 118: `None` and the empty
string are falsy, every other string is truthy. -/
def truthy : Option String → Bool
  | none => false
  | some s => !(s == "")

/-- The observable stages of one pipeline run. -/
inductive StageEvent where
  | dumpStage
  | uploadStage (file : String)
  | retentionStage (days : Int)
  deriving Repr, DecidableEq

/-- The `__main__` block (lines 115-121): run `backup_database`; if the
returned value is truthy, run `upload_to_supabase` on it and then
`cleanup_old_backups(days=7)`. An error escaping the retention scan
propagates out of the run (nothing catches it in `__main__`). Result: the
stages that ran, and the propagated error if any. -/
def main_pipeline (cfg : Config) (now : DateTime) (proc : ProcResult)
    (sb : StorageResult) (nowSec : Int) (entries : List DirEntry) (fs : FS) :
    List StageEvent × Option PyError :=
  let (fs1, backup_file) := backup_database cfg now proc fs
  if truthy backup_file then
    let p := backup_file.getD ""
    let _up := upload_to_supabase cfg sb fs1 p
    let cl := cleanup_old_backups cfg.BACKUP_DIR nowSec 7 entries
    ([StageEvent.dumpStage, StageEvent.uploadStage p, StageEvent.retentionStage 7], cl.2)
  else
    ([StageEvent.dumpStage], none)

/-! ## Helper lemmas -/

theorem joinPath_inj (bd a b : String) (h : joinPath bd a = joinPath bd b) : a = b := by
  have hd : (bd ++ "/").data ++ a.data = (bd ++ "/").data ++ b.data := by
    have hc := congrArg String.data h
    simpa [joinPath, String.data_append] using hc
  exact String.ext (List.append_cancel_left hd)

theorem joinPath_ne_empty (bd a : String) : joinPath bd a ≠ "" := by
  intro h
  have hlen := congrArg String.length h
  rw [joinPath, String.length_append, String.length_append] at hlen
  have h1 : ("/" : String).length = 1 := rfl
  have h0 : ("" : String).length = 0 := rfl
  omega

theorem fsGet_fsSet_self (fs : FS) (p v : String) : fsGet (fsSet fs p v) p = some v := by
  simp [fsGet, fsSet]

theorem fsGet_filter_ne (fs : FS) (p q : String) (h : q ≠ p) :
    fsGet (fs.filter (fun e => e.1 ≠ p)) q = fsGet fs q := by
  induction fs with
  | nil => rfl
  | cons e rest ih =>
    rw [List.filter_cons]
    by_cases he : e.1 = p
    · have heq : ¬ e.1 = q := by rw [he]; intro hc; exact h hc.symm
      have hb : decide (e.1 ≠ p) = false := by simp [he]
      rw [hb, if_neg (by simp)]
      rw [ih]
      show fsGet rest q = fsGet (e :: rest) q
      simp [fsGet, heq]
    · have hb : decide (e.1 ≠ p) = true := by simp [he]
      rw [hb, if_pos rfl]
      show fsGet (e :: rest.filter (fun e => e.1 ≠ p)) q = fsGet (e :: rest) q
      by_cases heq : e.1 = q
      · simp [fsGet, heq]
      · simp only [fsGet, if_neg heq]
        exact ih

theorem fsGet_fsSet_of_ne (fs : FS) (p v q : String) (h : q ≠ p) :
    fsGet (fsSet fs p v) q = fsGet fs q := by
  have hpq : ¬ p = q := fun hc => h hc.symm
  show fsGet ((p, v) :: fs.filter (fun e => e.1 ≠ p)) q = fsGet fs q
  simp only [fsGet, if_neg hpq]
  exact fsGet_filter_ne fs p q h

/-! ## Claim theorems about the dump stage (`backup_database`) -/

/-- C5: `backup_database` returns the output file path exactly when the
external dump process exits with code zero; on a non-zero exit or a
process-launch failure it returns `None`, the failure being logged rather
than raised to the caller. -/
theorem backup_database_return_iff_zero_exit (cfg : Config) (now : DateTime)
    (proc : ProcResult) (fs : FS) :
    ((backup_database cfg now proc fs).2 = some (backup_file_path cfg now)
        ↔ ∃ output, proc = ProcResult.exits 0 output) ∧
    ((backup_database cfg now proc fs).2 = none
        ↔ ∀ output, proc ≠ ProcResult.exits 0 output) := by
  cases proc with
  | launchFailure e =>
    constructor
    · constructor
      · intro h; simp [backup_database] at h
      · rintro ⟨output, hout⟩; exact ProcResult.noConfusion hout
    · constructor
      · intro _ output hc; exact ProcResult.noConfusion hc
      · intro _; rfl
  | exits code output =>
    by_cases hc : code = 0
    · subst hc
      constructor
      · constructor
        · intro _; exact ⟨output, rfl⟩
        · intro _; simp [backup_database]
      · constructor
        · intro h; simp [backup_database] at h
        · intro h; exact absurd rfl (h output)
    · constructor
      · constructor
        · intro h; simp [backup_database, hc] at h
        · rintro ⟨out2, hout⟩
          injection hout with h1 h2
          exact absurd h1 hc
      · constructor
        · intro _ out2 hout
          injection hout with h1 h2
          exact absurd h1 hc
        · intro _; simp [backup_database, hc]

/-- A sample configuration used by the concrete witnesses below. -/
def sampleConfig : Config :=
  { DB_CONTAINER_NAME := "dbc"
    DB_NAME := "appdb"
    DB_USER := "alice"
    SUPABASE_URL := "https://x.example"
    SUPABASE_KEY := "service-key"
    SUPABASE_BUCKET := "backups-bucket"
    BACKUP_DIR := "backups"
    DB_PASSWORD := "hunter2" }

/-- A sample invocation time used by the concrete witnesses below. -/
def sampleNow : DateTime := ⟨2024, 1, 2, 3, 4, 5⟩

/-- C5 witness at a concrete zero-exit run. -/
theorem backup_database_return_iff_zero_exit_witness :
    ((backup_database sampleConfig sampleNow (ProcResult.exits 0 "SELECT 1;") []).2
        = some (backup_file_path sampleConfig sampleNow)
      ↔ ∃ output, ProcResult.exits 0 "SELECT 1;" = ProcResult.exits 0 output) ∧
    ((backup_database sampleConfig sampleNow (ProcResult.exits 0 "SELECT 1;") []).2 = none
      ↔ ∀ output, ProcResult.exits 0 "SELECT 1;" ≠ ProcResult.exits 0 output) :=
  backup_database_return_iff_zero_exit sampleConfig sampleNow (ProcResult.exits 0 "SELECT 1;") []

/-- C9: `backup_database` creates (or truncates) the timestamped output file
before launching the external process: a launch failure leaves an empty file
on disk while returning `None`, and a second invocation within the same
clock second silently overwrites the first invocation's file and reports
success, rather than failing. -/
theorem output_file_truncated_before_launch (cfg : Config) (now : DateTime)
    (fs : FS) (e : PyError) (out1 out2 : String) :
    (fsGet (backup_database cfg now (ProcResult.launchFailure e) fs).1
        (backup_file_path cfg now) = some "" ∧
      (backup_database cfg now (ProcResult.launchFailure e) fs).2 = none) ∧
    (fsGet (backup_database cfg now (ProcResult.exits 0 out2)
          (backup_database cfg now (ProcResult.exits 0 out1) fs).1).1
        (backup_file_path cfg now) = some out2 ∧
      (backup_database cfg now (ProcResult.exits 0 out2)
          (backup_database cfg now (ProcResult.exits 0 out1) fs).1).2
        = some (backup_file_path cfg now)) := by
  refine ⟨⟨?_, rfl⟩, ?_, ?_⟩
  · simp [backup_database, fsGet_fsSet_self]
  · simp [backup_database, fsGet_fsSet_self]
  · simp [backup_database]

/-- C7: a successful invocation of the dump stage creates exactly one new
file: the timestamped path `BACKUP_DIR/db_backup_<YYYYMMDD_HHMMSS>.sql`
(with the timestamp of the moment of invocation) was absent beforehand,
holds exactly the external command's standard output afterwards, and every
other path of the filesystem is untouched. -/
theorem successful_dump_creates_single_file (cfg : Config) (now : DateTime)
    (output : String) (fs : FS)
    (hfresh : fsGet fs (backup_file_path cfg now) = none) :
    backup_file_path cfg now
        = cfg.BACKUP_DIR ++ "/" ++ ("db_backup_" ++ strftimeTimestamp now ++ ".sql") ∧
    (backup_database cfg now (ProcResult.exits 0 output) fs).2
        = some (backup_file_path cfg now) ∧
    fsGet fs (backup_file_path cfg now) = none ∧
    fsGet (backup_database cfg now (ProcResult.exits 0 output) fs).1
        (backup_file_path cfg now) = some output ∧
    ∀ q, q ≠ backup_file_path cfg now →
      fsGet (backup_database cfg now (ProcResult.exits 0 output) fs).1 q = fsGet fs q := by
  refine ⟨rfl, by simp [backup_database], hfresh,
    by simp [backup_database, fsGet_fsSet_self], ?_⟩
  intro q hq
  show fsGet (fsSet (fsSet fs (backup_file_path cfg now) "")
      (backup_file_path cfg now) output) q = fsGet fs q
  rw [fsGet_fsSet_of_ne _ _ _ _ hq, fsGet_fsSet_of_ne _ _ _ _ hq]

/-- C7 witness: concrete successful run on an empty filesystem. -/
theorem successful_dump_creates_single_file_witness :
    (backup_database sampleConfig sampleNow (ProcResult.exits 0 "SELECT 1;") []).2
        = some (backup_file_path sampleConfig sampleNow) ∧
    fsGet (backup_database sampleConfig sampleNow (ProcResult.exits 0 "SELECT 1;") []).1
        (backup_file_path sampleConfig sampleNow) = some "SELECT 1;" :=
  ⟨(successful_dump_creates_single_file sampleConfig sampleNow "SELECT 1;" [] rfl).2.1,
   (successful_dump_creates_single_file sampleConfig sampleNow "SELECT 1;" [] rfl).2.2.2.1⟩

/-- C4 counterexample: with password `hunter2`, the argument list built by
the dump stage contains the element `PGPASSWORD=hunter2`, an element that
contains the password — refuting the claim that no element of the
constructed container-exec command contains the password. -/
theorem claim_password_not_in_cmd_cex :
    ("PGPASSWORD=hunter2" ∈ backup_cmd sampleConfig) ∧
    "PGPASSWORD=hunter2" = "PGPASSWORD=" ++ sampleConfig.DB_PASSWORD := by
  constructor
  · simp [backup_cmd, sampleConfig]
  · rfl

/-- C4 amended: the dump stage passes the database password into the
container-exec command line as the `KEY=VALUE` argument of a `-e` flag: the
element `PGPASSWORD=<password>` is among the values that `docker exec -e`
forwards into the child process environment, so the dump tool does receive
it as an environment variable, but the same string is an element of the
host-side argument list that `backup_database` builds. -/
theorem password_passed_as_env_flag_argument (cfg : Config) :
    ("PGPASSWORD=" ++ cfg.DB_PASSWORD) ∈ envFlagValues (backup_cmd cfg) ∧
    ("PGPASSWORD=" ++ cfg.DB_PASSWORD) ∈ backup_cmd cfg := by
  constructor
  · have h : envFlagValues (backup_cmd cfg)
        = ("PGPASSWORD=" ++ cfg.DB_PASSWORD)
          :: envFlagValues (cfg.DB_CONTAINER_NAME :: "pg_dump" :: "-U" :: cfg.DB_USER
              :: "-h" :: "postgres" :: "-p" :: "5432" :: cfg.DB_NAME :: []) := rfl
    rw [h]
    exact List.mem_cons_self _ _
  · simp [backup_cmd]

/-- C10: `upload_to_supabase` never lets an exception escape: for every
filesystem, storage behaviour and string file path — including a missing
local file, not only storage-client errors — it returns normally with no
value, and whenever its body raised, an error was logged. -/
theorem upload_to_supabase_total (cfg : Config) (sb : StorageResult)
    (fs : FS) (file_path : String) :
    (upload_to_supabase cfg sb fs file_path).2 = Except.ok () ∧
    (fsGet fs file_path = none →
      ∃ m, UploadEvent.logError m ∈ (upload_to_supabase cfg sb fs file_path).1) := by
  constructor
  · rcases h : upload_body cfg sb fs file_path with ⟨evs, r⟩
    cases r with
    | ok u => simp [upload_to_supabase, h]
    | error e => simp [upload_to_supabase, h]
  · intro hnone
    have hb : upload_body cfg sb fs file_path
        = ([UploadEvent.logInfo ("Starting upload of file: " ++ basename file_path)],
           Except.error (PyError.fileNotFoundError file_path)) := by
      simp [upload_body, hnone]
    refine ⟨"Error uploading to Supabase: "
        ++ reprStr (PyError.fileNotFoundError file_path), ?_⟩
    simp [upload_to_supabase, hb]

/-- C10 witness: missing local file, concrete inputs. -/
theorem upload_to_supabase_total_witness :
    (upload_to_supabase sampleConfig StorageResult.ok [] "backups/a.sql").2 = Except.ok () ∧
    (fsGet [] "backups/a.sql" = none →
      ∃ m, UploadEvent.logError m
        ∈ (upload_to_supabase sampleConfig StorageResult.ok [] "backups/a.sql").1) :=
  upload_to_supabase_total sampleConfig StorageResult.ok [] "backups/a.sql"

/-! ## Claim theorems about the pipeline (`__main__`) -/

/-- C2: when the dump stage fails — the external process exits non-zero or
fails to launch, so `backup_database` returns `None` — the pipeline runs
neither the upload stage nor the retention stage, and no exception is
raised past the dump stage. -/
theorem dump_failure_skips_remaining_stages (cfg : Config) (now : DateTime)
    (proc : ProcResult) (sb : StorageResult) (nowSec : Int)
    (entries : List DirEntry) (fs : FS)
    (h : ∀ output, proc ≠ ProcResult.exits 0 output) :
    main_pipeline cfg now proc sb nowSec entries fs = ([StageEvent.dumpStage], none) := by
  have hb : (backup_database cfg now proc fs).2 = none := by
    cases proc with
    | launchFailure e => rfl
    | exits code output =>
      have hc : ¬ code = 0 := fun hcc => h output (by rw [hcc])
      simp [backup_database, hc]
  rcases hback : backup_database cfg now proc fs with ⟨fs1, bf⟩
  rw [hback] at hb
  have hbf : bf = none := hb
  subst hbf
  unfold main_pipeline
  rw [hback]
  rfl

/-- C2 witness: concrete launch-failure run. -/
theorem dump_failure_skips_remaining_stages_witness :
    main_pipeline sampleConfig sampleNow
        (ProcResult.launchFailure (PyError.fileNotFoundError "docker"))
        StorageResult.ok 0 [] []
      = ([StageEvent.dumpStage], none) :=
  dump_failure_skips_remaining_stages sampleConfig sampleNow
    (ProcResult.launchFailure (PyError.fileNotFoundError "docker"))
    StorageResult.ok 0 [] []
    (fun _ hc => ProcResult.noConfusion hc)

/-- C3: every storage-client error in the upload stage is caught and logged
inside that stage and does not propagate, and after a successful dump the
retention stage still executes, its stage event following the upload stage
event; the only error the pipeline can then report is one escaping the
retention scan. -/
theorem upload_error_still_runs_retention (cfg : Config) (now : DateTime)
    (output : String) (e : PyError) (nowSec : Int)
    (entries : List DirEntry) (fs : FS) :
    main_pipeline cfg now (ProcResult.exits 0 output) (StorageResult.raises e)
        nowSec entries fs
      = ([StageEvent.dumpStage, StageEvent.uploadStage (backup_file_path cfg now),
          StageEvent.retentionStage 7],
         (cleanup_old_backups cfg.BACKUP_DIR nowSec 7 entries).2) ∧
    (upload_to_supabase cfg (StorageResult.raises e)
        (backup_database cfg now (ProcResult.exits 0 output) fs).1
        (backup_file_path cfg now)).2 = Except.ok () ∧
    ∃ m, UploadEvent.logError m ∈ (upload_to_supabase cfg (StorageResult.raises e)
        (backup_database cfg now (ProcResult.exits 0 output) fs).1
        (backup_file_path cfg now)).1 := by
  have hbd : backup_database cfg now (ProcResult.exits 0 output) fs
      = (fsSet (fsSet fs (backup_file_path cfg now) "") (backup_file_path cfg now) output,
         some (backup_file_path cfg now)) := by
    simp [backup_database]
  have hne : ((backup_file_path cfg now) == "") = false := by
    rw [beq_eq_false_iff_ne]
    exact joinPath_ne_empty _ _
  have hget : fsGet (backup_database cfg now (ProcResult.exits 0 output) fs).1
      (backup_file_path cfg now) = some output := by
    rw [hbd]
    exact fsGet_fsSet_self _ _ _
  have hb : upload_body cfg (StorageResult.raises e)
      (backup_database cfg now (ProcResult.exits 0 output) fs).1
      (backup_file_path cfg now)
      = ([UploadEvent.logInfo ("Starting upload of file: "
            ++ basename (backup_file_path cfg now)),
          UploadEvent.storageUpload cfg.SUPABASE_BUCKET
            (basename (backup_file_path cfg now)) output],
         Except.error e) := by
    simp [upload_body, hget]
  refine ⟨?_, ?_, ?_⟩
  · unfold main_pipeline
    rw [hbd]
    simp [truthy, hne]
  · simp [upload_to_supabase, hb]
  · refine ⟨"Error uploading to Supabase: " ++ reprStr e, ?_⟩
    simp [upload_to_supabase, hb]

/-! ## Lemmas about the retention stage -/

theorem cleanup_cons_err (bd : String) (now days : Int) (e : DirEntry)
    (rest : List DirEntry) (err : PyError)
    (h : (cleanup_step bd now days e).2 = some err) :
    cleanup_old_backups bd now days (e :: rest)
      = ((cleanup_step bd now days e).1, some err) := by
  rcases hs : cleanup_step bd now days e with ⟨evs, r⟩
  have hr : r = some err := by rw [hs] at h; exact h
  subst hr
  simp only [cleanup_old_backups]
  rw [hs]

theorem cleanup_cons_ok (bd : String) (now days : Int) (e : DirEntry)
    (rest : List DirEntry)
    (h : (cleanup_step bd now days e).2 = none) :
    cleanup_old_backups bd now days (e :: rest)
      = ((cleanup_step bd now days e).1 ++ (cleanup_old_backups bd now days rest).1,
         (cleanup_old_backups bd now days rest).2) := by
  rcases hs : cleanup_step bd now days e with ⟨evs, r⟩
  have hr : r = none := by rw [hs] at h; exact h
  subst hr
  simp only [cleanup_old_backups]
  rw [hs]

theorem step_error_no_events (bd : String) (now days : Int) (f : DirEntry)
    (err : PyError) (h : (cleanup_step bd now days f).2 = some err) :
    (cleanup_step bd now days f).1 = [] := by
  unfold cleanup_step at h ⊢
  by_cases hfile : f.isFile = true
  · rw [if_pos hfile] at h ⊢
    rcases hstat : f.statResult with e | mtime
    · rfl
    · rw [hstat] at h
      by_cases hage : (now - mtime).fdiv 86400 > days
      · rcases hrem : f.removeResult with e2 | u
        · simp [hage, hrem]
        · simp [hage, hrem] at h
      · simp [hage]
  · rw [if_neg hfile]

theorem step_deleted_iff (bd : String) (now days : Int) (f : DirEntry) (p : String)
    (hf : (cleanup_step bd now days f).2 = none) :
    (CleanupEvent.deleted p ∈ (cleanup_step bd now days f).1 ↔
      (p = joinPath bd f.filename ∧ f.isFile = true ∧
        ∃ mtime, f.statResult = Except.ok mtime ∧ (now - mtime).fdiv 86400 > days)) := by
  unfold cleanup_step at hf ⊢
  by_cases hfile : f.isFile = true
  · rw [if_pos hfile] at hf ⊢
    rcases hstat : f.statResult with e | mtime
    · rw [hstat] at hf
      exact Option.noConfusion hf
    · by_cases hage : (now - mtime).fdiv 86400 > days
      · rcases hrem : f.removeResult with e2 | u
        · rw [hstat] at hf
          simp [hage, hrem] at hf
        · simp [hfile, hage, hrem]
      · simp [hage]
  · rw [if_neg hfile]
    simp [hfile]

theorem cleanup_deleted_mem_source (bd : String) (now days : Int)
    (entries : List DirEntry) (p : String)
    (h : CleanupEvent.deleted p ∈ (cleanup_old_backups bd now days entries).1) :
    ∃ g, g ∈ entries ∧ p = joinPath bd g.filename := by
  induction entries with
  | nil => simp [cleanup_old_backups] at h
  | cons f rest ih =>
    rcases hs : (cleanup_step bd now days f).2 with _ | err
    · have h2 : CleanupEvent.deleted p
          ∈ (cleanup_step bd now days f).1 ++ (cleanup_old_backups bd now days rest).1 := by
        rw [cleanup_cons_ok bd now days f rest hs] at h
        exact h
      rcases List.mem_append.1 h2 with h3 | h3
      · exact ⟨f, List.mem_cons_self f rest,
          ((step_deleted_iff bd now days f p hs).1 h3).1⟩
      · obtain ⟨g, hg, hp⟩ := ih h3
        exact ⟨g, List.mem_cons_of_mem f hg, hp⟩
    · rw [cleanup_cons_err bd now days f rest err hs,
          step_error_no_events bd now days f err hs] at h
      simp at h

/-! ## Claim theorems about the retention stage -/

/-- C1: in an error-free retention scan over a directory listing with
distinct names, a file is deleted exactly when the entry is a regular file
whose whole-day age — the floored day difference between the current time
and its last-modified timestamp — strictly exceeds the threshold; entries
exactly at the threshold are retained and non-file entries are never
deleted. -/
theorem cleanup_deletes_iff_age_exceeds (bd : String) (now days : Int)
    (entries : List DirEntry) (e : DirEntry)
    (hnodup : (entries.map DirEntry.filename).Nodup)
    (hmem : e ∈ entries)
    (hok : ∀ f, f ∈ entries → (cleanup_step bd now days f).2 = none) :
    (CleanupEvent.deleted (joinPath bd e.filename)
        ∈ (cleanup_old_backups bd now days entries).1
      ↔ (e.isFile = true ∧
          ∃ mtime, e.statResult = Except.ok mtime
            ∧ (now - mtime).fdiv 86400 > days)) := by
  induction entries with
  | nil => cases hmem
  | cons f rest ih =>
    have hf := hok f (List.mem_cons_self f rest)
    have hmm : CleanupEvent.deleted (joinPath bd e.filename)
        ∈ (cleanup_old_backups bd now days (f :: rest)).1
      ↔ (CleanupEvent.deleted (joinPath bd e.filename) ∈ (cleanup_step bd now days f).1
          ∨ CleanupEvent.deleted (joinPath bd e.filename)
              ∈ (cleanup_old_backups bd now days rest).1) := by
      rw [cleanup_cons_ok bd now days f rest hf]
      exact List.mem_append
    rw [hmm]
    rcases List.mem_cons.1 hmem with heq | hmem2
    · subst heq
      have hnotrest : CleanupEvent.deleted (joinPath bd e.filename)
          ∉ (cleanup_old_backups bd now days rest).1 := by
        intro hcon
        obtain ⟨g, hg, hp⟩ := cleanup_deleted_mem_source bd now days rest _ hcon
        have hfn : e.filename = g.filename := joinPath_inj bd _ _ hp
        exact (List.nodup_cons.1 hnodup).1
          (hfn ▸ List.mem_map_of_mem DirEntry.filename hg)
      constructor
      · intro h1
        rcases h1 with h1 | h1
        · exact ((step_deleted_iff bd now days e _ hf).1 h1).2
        · exact absurd h1 hnotrest
      · intro hrhs
        exact Or.inl ((step_deleted_iff bd now days e _ hf).2 ⟨rfl, hrhs.1, hrhs.2⟩)
    · have hne : e.filename ≠ f.filename := by
        intro hc
        apply (List.nodup_cons.1 hnodup).1
        rw [← hc]
        exact List.mem_map_of_mem DirEntry.filename hmem2
      have hnotf : CleanupEvent.deleted (joinPath bd e.filename)
          ∉ (cleanup_step bd now days f).1 := by
        intro hcon
        exact hne (joinPath_inj bd _ _
          ((step_deleted_iff bd now days f _ hf).1 hcon).1)
      have ihh := ih (List.nodup_cons.1 hnodup).2 hmem2
        (fun g hg => hok g (List.mem_cons_of_mem f hg))
      constructor
      · intro h1
        rcases h1 with h1 | h1
        · exact absurd h1 hnotf
        · exact ihh.1 h1
      · intro hrhs
        exact Or.inr (ihh.2 hrhs)

/-- An old regular file, used by the concrete retention witnesses. -/
def sampleEntry : DirEntry := ⟨"a.sql", true, Except.ok 0, Except.ok ()⟩

/-- A second well-behaved regular file for the retention witnesses. -/
def sampleEntry2 : DirEntry := ⟨"c.sql", true, Except.ok 0, Except.ok ()⟩

/-- A regular file whose stat call raises, for the retention witnesses. -/
def sampleBadEntry : DirEntry :=
  ⟨"bad.sql", true, Except.error (PyError.oSError "stat failed"), Except.ok ()⟩

/-- C1 witness: a single regular file, ten days old, threshold seven. -/
theorem cleanup_deletes_iff_age_exceeds_witness :
    (CleanupEvent.deleted (joinPath "backups" sampleEntry.filename)
        ∈ (cleanup_old_backups "backups" 864000 7 [sampleEntry]).1
      ↔ (sampleEntry.isFile = true ∧
          ∃ mtime, sampleEntry.statResult = Except.ok mtime
            ∧ ((864000 : Int) - mtime).fdiv 86400 > 7)) :=
  cleanup_deletes_iff_age_exceeds "backups" 864000 7 [sampleEntry] sampleEntry
    (by decide) (by decide) (by decide)

/-- C8: a filesystem error during the retention scan propagates out of
`cleanup_old_backups` and aborts the scan: when the entries before the
failing one are processed cleanly, the run's error is exactly the failing
entry's error, the deletions are exactly those of the preceding entries,
and the entries after the failing one are not examined (the result does not
depend on them). -/
theorem cleanup_error_aborts_scan (bd : String) (now days : Int)
    (pre post : List DirEntry) (e : DirEntry) (err : PyError)
    (hpre : (cleanup_old_backups bd now days pre).2 = none)
    (he : (cleanup_step bd now days e).2 = some err) :
    cleanup_old_backups bd now days (pre ++ e :: post)
      = ((cleanup_old_backups bd now days pre).1, some err) := by
  induction pre with
  | nil =>
    rw [List.nil_append, cleanup_cons_err bd now days e post err he,
        step_error_no_events bd now days e err he]
    rfl
  | cons f pre2 ih =>
    have hf : (cleanup_step bd now days f).2 = none := by
      rcases hs : (cleanup_step bd now days f).2 with _ | err2
      · rfl
      · rw [cleanup_cons_err bd now days f pre2 err2 hs] at hpre
        exact Option.noConfusion hpre
    have hpre2 : (cleanup_old_backups bd now days pre2).2 = none := by
      rw [cleanup_cons_ok bd now days f pre2 hf] at hpre
      exact hpre
    have hrec := ih hpre2
    rw [List.cons_append, cleanup_cons_ok bd now days f (pre2 ++ e :: post) hf, hrec,
        cleanup_cons_ok bd now days f pre2 hf]

/-- C8 witness: a clean deletion, then a failing stat, then an unexamined
entry. -/
theorem cleanup_error_aborts_scan_witness :
    cleanup_old_backups "backups" 864000 7
        ([sampleEntry] ++ sampleBadEntry :: [sampleEntry2])
      = ((cleanup_old_backups "backups" 864000 7 [sampleEntry]).1,
         some (PyError.oSError "stat failed")) :=
  cleanup_error_aborts_scan "backups" 864000 7 [sampleEntry] [sampleEntry2]
    sampleBadEntry (PyError.oSError "stat failed") (by decide) (by decide)

/-! ## Claim theorems about startup configuration validation -/

theorem missing_vars_characterization (env : Env) :
    missing_vars env
      = requiredEnvVarNames.filter
          (fun k => !(k == "BACKUP_DIR") && (getenv env k).isNone) := by
  rcases h1 : getenv env "DB_CONTAINER_NAME" with _ | v1 <;>
  rcases h2 : getenv env "DB_NAME" with _ | v2 <;>
  rcases h3 : getenv env "DB_USER" with _ | v3 <;>
  rcases h4 : getenv env "SUPABASE_URL" with _ | v4 <;>
  rcases h5 : getenv env "SUPABASE_KEY" with _ | v5 <;>
  rcases h6 : getenv env "SUPABASE_BUCKET" with _ | v6 <;>
  rcases h7 : getenv env "DB_PASSWORD" with _ | v7 <;>
  simp [missing_vars, required_env_vars, requiredEnvVarNames, getenvD,
        List.filter, h1, h2, h3, h4, h5, h6, h7]

/-- C6 counterexample: with an empty environment, startup does fail with the
error listing the missing keys — but only after module-level side effects
have occurred: the logging setup has already opened (creating, if absent)
the log file `database_backup.log`, a file operation. The failure therefore
does not precede every side effect, refuting the claim as stated. -/
theorem claim_no_side_effect_before_failure_cex :
    (module_load []).2 = Except.error (PyError.valueError
        ("Missing required environment variables: DB_CONTAINER_NAME, DB_NAME, DB_USER, SUPABASE_URL, SUPABASE_KEY, SUPABASE_BUCKET, DB_PASSWORD")) ∧
    StartupEffect.openLogFile "database_backup.log" ∈ (module_load []).1 ∧
    isFileEffect (StartupEffect.openLogFile "database_backup.log") = true := by
  refine ⟨by decide, by decide, rfl⟩

/-- C6 amended: if any required configuration key is absent from the
environment, module load raises a `ValueError` whose message lists, by name,
exactly the required keys absent from the environment (`BACKUP_DIR` is never
among them, having a default), and this happens before the backup directory
is created and before the storage client is constructed — though after the
logging setup has opened the log file and `load_dotenv` has read the dotenv
file, which are the only effects performed. -/
theorem missing_env_vars_fail_fast (env : Env) (h : missing_vars env ≠ []) :
    (module_load env).2 = Except.error (PyError.valueError
        ("Missing required environment variables: "
          ++ String.intercalate ", " (missing_vars env))) ∧
    (module_load env).1
      = [StartupEffect.openLogFile "database_backup.log", StartupEffect.readDotenv] ∧
    missing_vars env
      = requiredEnvVarNames.filter
          (fun k => !(k == "BACKUP_DIR") && (getenv env k).isNone) := by
  have hemp : (missing_vars env).isEmpty = false := by
    rcases hm : missing_vars env with _ | ⟨a, l⟩
    · exact absurd hm h
    · rfl
  refine ⟨?_, ?_, missing_vars_characterization env⟩
  · simp [module_load, hemp]
  · simp [module_load, hemp]

/-- C6 witness: empty environment. -/
theorem missing_env_vars_fail_fast_witness :
    (module_load []).2 = Except.error (PyError.valueError
        ("Missing required environment variables: "
          ++ String.intercalate ", " (missing_vars []))) ∧
    (module_load []).1
      = [StartupEffect.openLogFile "database_backup.log", StartupEffect.readDotenv] ∧
    missing_vars []
      = requiredEnvVarNames.filter
          (fun k => !(k == "BACKUP_DIR") && (getenv [] k).isNone) :=
  missing_env_vars_fail_fast [] (by decide)

end DbScript
